import Mathlib

/-!
Shallow embedding of the ANX7688 USB-C bridge driver
(src/drivers/usb/typec/anx7688.c).

Register I/O and collaborator subsystems (regulators, power supply,
typec port, role switch) are external; their observable results are
passed in explicitly as environment records, and the driver's session
state (the fields of struct anx7688 together with the port / power
supply state it mutates) is threaded as an explicit record.  Errno
values are the Linux ones: EINVAL = 22, EBUSY = 16, ETIMEDOUT = 110,
EIO = 5; C functions returning int are modelled as returning Int.
-/

/-- Linux enum typec_role: TYPEC_SINK = 0, TYPEC_SOURCE = 1. -/
def TYPEC_SINK : Int := 0

def TYPEC_SOURCE : Int := 1

/-- Linux enum typec_data_role: TYPEC_DEVICE = 0, TYPEC_HOST = 1. -/
def TYPEC_DEVICE : Int := 0

def TYPEC_HOST : Int := 1

/-- Linux enum typec_pwr_opmode: USB = 0, 1.5A = 1, 3.0A = 2, PD = 3. -/
def TYPEC_PWR_MODE_USB : Int := 0

def TYPEC_PWR_MODE_1_5A : Int := 1

def TYPEC_PWR_MODE_3_0A : Int := 2

def TYPEC_PWR_MODE_PD : Int := 3

/-- Linux enum usb_role: NONE = 0, DEVICE = 1, HOST = 2. -/
def USB_ROLE_NONE : Int := 0

def USB_ROLE_DEVICE : Int := 1

def USB_ROLE_HOST : Int := 2

/-- Session state of one anx7688 device: the flag bits and fields of
struct anx7688 the driver mutates, plus the mirrored state of the
collaborators it drives (typec port, usb role switch, vbus_in power
supply).  Power supply current limits are in uA exactly as passed to
POWER_SUPPLY_PROP_INPUT_CURRENT_LIMIT. -/
structure Anx7688 where
  powered : Bool                -- ANX7688_F_POWERED
  connected : Bool              -- ANX7688_F_CONNECTED
  fwFailed : Bool               -- ANX7688_F_FW_FAILED
  vbusOn : Bool                 -- anx7688->vbus_on
  vconnOn : Bool                -- anx7688->vconn_on
  pdCapable : Bool              -- anx7688->pd_capable
  pdCurrentLimit : Int          -- anx7688->pd_current_limit (mA)
  currentUpdateDeadline : Int   -- anx7688->current_update_deadline (0 = unset)
  inputCurrentLimit : Int       -- anx7688->input_current_limit (mA)
  lastStatus : Int              -- anx7688->last_status
  lastCcStatus : Int            -- anx7688->last_cc_status
  lastDpState : Int             -- anx7688->last_dp_state
  lastExtconState : Int         -- anx7688->last_extcon_state
  partner : Option Unit         -- anx7688->partner (some = registered)
  pwrRole : Int                 -- anx7688->pwr_role
  dataRole : Int                -- anx7688->data_role
  portPwrRole : Int             -- typec_set_pwr_role target
  portDataRole : Int            -- typec_set_data_role target
  portPwrOpmode : Int           -- typec_set_pwr_opmode target
  portVconnRole : Int           -- typec_set_vconn_role target
  roleSw : Int                  -- usb_role_switch_set_role target
  psyInputCurrentLimit : Int    -- vbus_in INPUT_CURRENT_LIMIT property (uA)
  psyOnline : Bool              -- vbus_in ONLINE property
  psyBcEnabled : Bool           -- vbus_in USB_BC_ENABLED property
  deriving Repr, DecidableEq

/-- A concrete session state used by witnesses: everything off/empty,
cached status registers at their -1 sentinel, as after probe. -/
def anxInit : Anx7688 :=
  { powered := false, connected := false, fwFailed := false
    vbusOn := false, vconnOn := false, pdCapable := false
    pdCurrentLimit := 0, currentUpdateDeadline := 0, inputCurrentLimit := 0
    lastStatus := -1, lastCcStatus := -1, lastDpState := -1
    lastExtconState := -1, partner := none
    pwrRole := TYPEC_SINK, dataRole := TYPEC_DEVICE
    portPwrRole := TYPEC_SINK, portDataRole := TYPEC_DEVICE
    portPwrOpmode := TYPEC_PWR_MODE_USB, portVconnRole := TYPEC_SINK
    roleSw := USB_ROLE_NONE
    psyInputCurrentLimit := 0, psyOnline := false, psyBcEnabled := true }

/-! ## OCM Message Transport -/

/-- The frame assembled by anx7688_send_ocm_message (anx7688.c lines
340-347): pkt[0] = data_len + 1, pkt[1] = cmd, pkt[2..] = data, and a
final byte computed in u8 arithmetic as 0 minus the sum of the first
data_len + 2 bytes. -/
def anx7688_ocm_frame (cmd : Nat) (data : List Nat) : List Nat :=
  let hdr := (data.length + 1) % 256 :: cmd % 256 :: data
  hdr ++ [(256 - hdr.sum % 256) % 256]

/-- Environment for one anx7688_send_ocm_message call: result of the
initial ANX7688_TCPC_REG_INTERFACE_SEND occupancy read, result of the
i2c block write (logged but not acted on by the code), and results of
the successive occupancy reads of the 300-iteration drain-wait loop. -/
structure SendEnv where
  preRead : Int
  blockWrite : Int
  poll : Nat → Int

/-- The drain-wait loop of anx7688_send_ocm_message (lines 366-373):
up to 300 occupancy reads; a read returning less than or equal to zero
is returned as-is (0 = drained, negative = I/O error); if all 300
reads are positive the loop falls through to -ETIMEDOUT. -/
def sendWaitLoop (poll : Nat → Int) : Nat → Nat → Int
  | _, 0 => -110
  | i, fuel + 1 => if poll i ≤ 0 then poll i else sendWaitLoop poll (i + 1) fuel

/-- anx7688_send_ocm_message (lines 327-377).  Returns the C return
value together with the transmitted frame (none when nothing was
written to the send registers).  data_len greater than 29 is rejected
with -EINVAL; a nonzero occupancy pre-read (tx buffer full, or a
failed read) returns -EBUSY without transmitting; otherwise the frame
is written and the drain-wait loop decides the result. -/
def anx7688_send_ocm_message (env : SendEnv) (cmd : Nat) (data : List Nat) :
    Int × Option (List Nat) :=
  if data.length > 29 then (-22, none)
  else if env.preRead ≠ 0 then (-16, none)
  else (sendWaitLoop env.poll 0 300, some (anx7688_ocm_frame cmd data))

/-! ## PD Message Interpreter -/

/-- Environment for anx7688_handle_pd_message: read results of the
ANX7688_REG_MAX_VOLTAGE_STATUS and ANX7688_REG_MAX_POWER_STATUS
registers consumed by the SRC_CAP handler. -/
structure PdEnv where
  readMaxV : Int
  readMaxP : Int

/-- anx7688_handle_pd_message (lines 737-994), restricted to the
branches that touch session state; every other command only logs and
falls through to return 0.
* 0x00 PWR_SRC_CAP (lines 747-815): a length that is not a multiple
  of 4 only logs; otherwise pd_capable is set, then the negotiated
  max-voltage register is read (negative read propagated, zero value
  rejected with -EINVAL), then the max-power register (negative read
  propagated), then pd_current_limit = max_p * 5000 / max_v and the
  current-update deadline moves to now + 500 ms.
* 0x16 PWR_OBJ_REQ (lines 852-892): sets pd_capable, rest is logging.
* 0xf2 HARD_RST (lines 915-934): when pd_capable, forces the vbus_in
  power path offline and arms the deadline at now + 3000 ms; when not
  pd_capable only logs. -/
def anx7688_handle_pd_message (env : PdEnv) (cmd : Nat) (msg : List Nat)
    (len : Nat) (now : Int) (s : Anx7688) : Int × Anx7688 :=
  if cmd = 0x00 then
    if len % 4 ≠ 0 then (0, s)
    else
      let s := { s with pdCapable := true }
      if env.readMaxV < 0 then (env.readMaxV, s)
      else if env.readMaxV = 0 then (-22, s)
      else if env.readMaxP < 0 then (env.readMaxP, s)
      else
        (0, { s with pdCurrentLimit := env.readMaxP * 5000 / env.readMaxV,
                     currentUpdateDeadline := now + 500 })
  else if cmd = 0x16 then
    (0, { s with pdCapable := true })
  else if cmd = 0xf2 then
    if s.pdCapable then
      (0, { s with psyOnline := false, currentUpdateDeadline := now + 3000 })
    else
      (0, s)
  else
    (0, s)

/-- anx7688_receive_msg (lines 996-1033), after the 32-byte block read
from ANX7688_TCPC_REG_INTERFACE_RECV succeeded (pkt is that block).
pkt[0] = 0 or pkt[0] > 30 is rejected with -EINVAL; then the u8 sum of
the first pkt[0] + 2 bytes must be 0 mod 256 or the frame is rejected
with -EINVAL; a valid frame is dispatched to the PD message handler
(its return value is discarded) and 0 is returned. -/
def anx7688_receive_msg (env : PdEnv) (now : Int) (pkt : List Nat)
    (s : Anx7688) : Int × Anx7688 :=
  let len := pkt.getD 0 0
  if len = 0 ∨ len > 30 then (-22, s)
  else if (pkt.take (len + 2)).sum % 256 ≠ 0 then (-22, s)
  else
    (0, (anx7688_handle_pd_message env (pkt.getD 1 0)
          ((pkt.drop 2).take (len - 1)) (len - 1) now s).snd)

/-! ## Connection Lifecycle Controller -/

/-- anx7688_set_hdmi_hpd (lines 573-582): writes the HDMI extcon state
only when it differs from the cached last_extcon_state (the extcon
device is registered at probe). -/
def anx7688_set_hdmi_hpd (state : Int) (s : Anx7688) : Anx7688 :=
  if s.lastExtconState ≠ state then { s with lastExtconState := state } else s

/-- anx7688_disconnect (lines 584-648): clears the current-update
deadline, de-asserts HDMI HPD, disables VCONN/VBUS if on, powers the
chip off, clears pd_capable, unregisters the partner, resets the port
to Sink/Device/USB/VCONN-Sink, parks the role switch, sets the vbus_in
input current limit property to 500 mA (500000 uA), takes vbus_in
offline, re-enables BC1.2 detection and clears the Connected flag.
The power_supply_set_property results are only logged by the code. -/
def anx7688_disconnect (s : Anx7688) : Anx7688 :=
  let s := { s with currentUpdateDeadline := 0 }
  let s := anx7688_set_hdmi_hpd 0 s
  let s := if s.vconnOn then { s with vconnOn := false } else s
  let s := if s.vbusOn then { s with vbusOn := false } else s
  let s := { s with powered := false }
  let s := { s with pdCapable := false }
  let s := { s with partner := none }
  let s := { s with pwrRole := TYPEC_SINK, dataRole := TYPEC_DEVICE }
  let s := { s with portPwrRole := s.pwrRole, portDataRole := s.dataRole }
  let s := { s with portPwrOpmode := TYPEC_PWR_MODE_USB,
                    portVconnRole := TYPEC_SINK }
  let s := { s with roleSw := USB_ROLE_NONE }
  let s := { s with psyInputCurrentLimit := 500 * 1000 }
  let s := { s with psyOnline := false }
  let s := { s with psyBcEnabled := true }
  { s with connected := false }

/-- Environment for one anx7688_connect call: result of the VCONN
regulator_enable, the successive ANX7688_REG_EEPROM_LOAD_STATUS0 reads
of the firmware-wait loop, the firmware-version block read, the
register writes of the configuration sequence (indexed by register
address and value), the four anx7688_send_ocm_message calls (indexed
by command byte) and typec_register_partner. -/
structure ConnectEnv where
  vconnEnable : Int
  fwRead : Nat → Int
  fwVersionRead : Int
  regWrite : Nat → Nat → Int
  sendMsg : Nat → Int
  partnerRegister : Int

/-- The err_vconoff unwind of anx7688_connect (lines 563-567):
regulator_disable on VCONN and anx7688_power_disable. -/
def anx7688_connect_unwind (s : Anx7688) : Anx7688 :=
  { s with vconnOn := false, powered := false }

/-- The configuration sequence of anx7688_connect after the firmware
version read (lines 471-542), in call order: the step results of the
ten register writes and the four anx7688_send_ocm_message calls.  The
code aborts at the first step returning nonzero, so the first nonzero
entry of this list is the connect return value on those paths. -/
def anx7688_connect_steps (env : ConnectEnv) : List Int :=
  [ env.regWrite 0x28 0x00,    -- ANX7688_REG_STATUS_INT, 0
    env.regWrite 0x17 0x80,    -- STATUS_INT_MASK, ~ANX7688_SOFT_INT_MASK
    env.regWrite 0x4f 0xff,    -- IRQ_EXT_SOURCE2, 0xff
    env.regWrite 0x3d 0xfb,    -- IRQ_EXT_MASK2, ~ANX7688_IRQ2_SOFT_INT
    env.regWrite 0x22 25,      -- VBUS_OFF_DELAY_TIME, 100 / 4
    env.regWrite 0x23 150,     -- TRY_UFP_TIMER, 300 / 2
    env.regWrite 0x1b 50,      -- MAX_VOLTAGE, 5 V
    env.regWrite 0x1c 30,      -- MAX_POWER, 15 W
    env.regWrite 0x1d 1,       -- MIN_POWER, 0.5 W
    env.regWrite 0x27 0x1a,    -- FEATURE_CTRL, 0x1e with try_src off
    env.sendMsg 0x00,          -- OCM_MSG_PWR_SRC_CAP
    env.sendMsg 0x01,          -- OCM_MSG_PWR_SNK_CAP
    env.sendMsg 0x02,          -- OCM_MSG_DP_SNK_IDENTITY
    env.sendMsg 0x03 ]         -- OCM_MSG_SVID

/-- anx7688_connect (lines 379-571, DISABLE_OCM = 0 branch).  Resets
the cached status registers to the -1 sentinel, powers up, enables
VCONN (failure powers back off), waits up to 100 polls for bit 0 of
EEPROM_LOAD_STATUS0 (timeout sets FW_FAILED, returns -ETIMEDOUT and
unwinds), reads the firmware version, performs the configuration
register writes, sends the SRC_CAP / SNK_CAP / DP_SNK_IDENTITY / SVID
messages, re-registers the partner; every failure after VCONN was
enabled unwinds through err_vconoff with the failing step's return
value.  Success arms the current-update deadline at now + 3000 ms and
sets the Connected flag. -/
def anx7688_connect (env : ConnectEnv) (now : Int) (s : Anx7688) :
    Int × Anx7688 :=
  let s := { s with lastStatus := -1, lastCcStatus := -1, lastDpState := -1 }
  let s := { s with powered := true }
  if env.vconnEnable ≠ 0 then
    (env.vconnEnable, { s with powered := false })
  else
    let s := { s with vconnOn := true }
    match (List.range 100).find?
        (fun i => decide (0 ≤ env.fwRead i ∧ env.fwRead i % 2 = 1)) with
    | none =>
      (-110, anx7688_connect_unwind { s with fwFailed := true })
    | some _ =>
      if env.fwVersionRead < 0 then
        (env.fwVersionRead, anx7688_connect_unwind s)
      else
        match (anx7688_connect_steps env).find? (fun r => decide (r ≠ 0)) with
        | some e => (e, anx7688_connect_unwind s)
        | none =>
          let s := { s with partner := none }
          if env.partnerRegister ≠ 0 then
            (env.partnerRegister, anx7688_connect_unwind s)
          else
            (0, { s with partner := some (),
                         currentUpdateDeadline := now + 3000,
                         connected := true })

/-! ## Current-Limit Policy Engine -/

/-- anx7688_cc_status (lines 1763-1774): maps one CC status nibble to
a typec_pwr_opmode, or -1 when the nibble gives no classification. -/
def anx7688_cc_status (v : Int) : Int :=
  if v = 0 then -1
  else if v = 1 then -1
  else if v = 2 then -1
  else if v = 4 then TYPEC_PWR_MODE_USB
  else if v = 8 then TYPEC_PWR_MODE_1_5A
  else if v = 12 then TYPEC_PWR_MODE_3_0A
  else -1

/-- Environment for anx7688_handle_current_update: result of the
power_supply_get_property USB_BC_ENABLED query (return code and
value). -/
structure CurrentUpdateEnv where
  getBcRet : Int
  getBcVal : Int

/-- The power-mode decision of anx7688_handle_current_update (lines
1794-1809).  The function copies last_cc_status into an unsigned
local, so its cc_status < 0 check can never fire (modelled by the
mod-2^32 conversion); when not pd_capable the low CC nibble is
classified first and the high nibble only when the low one gave no
classification. -/
def anx7688_current_pwr_mode (s : Anx7688) : Int :=
  let cc_status : Int := s.lastCcStatus % 4294967296
  if s.pdCapable then TYPEC_PWR_MODE_PD
  else if cc_status < 0 then TYPEC_PWR_MODE_USB
  else
    let m := anx7688_cc_status (cc_status % 16)
    let m := if m < 0 then anx7688_cc_status (cc_status / 16 % 16) else m
    if m < 0 then TYPEC_PWR_MODE_USB else m

/-- The current limit picked from the power mode by
anx7688_handle_current_update (lines 1811-1816). -/
def anx7688_current_limit (s : Anx7688) : Int :=
  let pwr_mode := anx7688_current_pwr_mode s
  if pwr_mode = TYPEC_PWR_MODE_1_5A then 1500
  else if pwr_mode = TYPEC_PWR_MODE_3_0A then 3000
  else if pwr_mode = TYPEC_PWR_MODE_PD then s.pdCurrentLimit
  else 0

/-- anx7688_handle_current_update (lines 1792-1882).  A nonzero
computed limit disables BC1.2 detection and programs the limit; a
zero limit defers to BC1.2, falling back to a programmed 500 mA when
the BC1.2 status query fails or BC1.2 is disabled.  Finally the
vbus_in path is brought online and the resolved mode is reflected on
the port. -/
def anx7688_handle_current_update (env : CurrentUpdateEnv) (s : Anx7688) :
    Anx7688 :=
  let pwr_mode := anx7688_current_pwr_mode s
  let current_limit := anx7688_current_limit s
  let s := { s with inputCurrentLimit := current_limit }
  let s :=
    if current_limit ≠ 0 then
      { s with psyBcEnabled := false,
               psyInputCurrentLimit := current_limit * 1000 }
    else if env.getBcRet ≠ 0 ∨ env.getBcVal = 0 then
      { s with psyInputCurrentLimit := 500 * 1000 }
    else s
  let s := { s with psyOnline := true }
  { s with portPwrOpmode := pwr_mode }

/-- The deadline gate of anx7688_work (lines 1920-1924): the
current-limit engine runs only when the deadline is set and
ktime_get() is strictly after it. -/
def anx7688_work_current_update_due (now : Int) (s : Anx7688) : Bool :=
  decide (s.currentUpdateDeadline ≠ 0) &&
    decide (s.currentUpdateDeadline < now)

/-! ## Claims -/

/-- A concrete well-formed received block for witnesses: declared
length 1 (command 0x05 = ACCEPT, no payload), checksum byte 250, so
the first three bytes sum to 256, padded to the 32-byte block size. -/
def pktAccept : List Nat := [1, 5, 250] ++ List.replicate 29 0

/-- A concrete received block with a bad checksum for witnesses. -/
def pktBadSum : List Nat := [1, 5, 251] ++ List.replicate 29 0

/-- PdEnv with the negotiated-result registers reading 50 (5 V) and
30 (15 W). -/
def pdEnv50_30 : PdEnv := { readMaxV := 50, readMaxP := 30 }

/-- C1: every frame built by anx7688_send_ocm_message for a command
byte and a payload of at most 29 bytes has byte-sum 0 mod 256, and
every 32-byte block whose declared length is 1..30 and whose first
length + 2 bytes sum to 0 mod 256 is accepted by the validator in
anx7688_receive_msg. -/
theorem claim_C1 (cmd : Nat) (data : List Nat) (env : PdEnv) (now : Int)
    (pkt : List Nat) (s : Anx7688) :
    (cmd < 256 → data.length ≤ 29 → (∀ b ∈ data, b < 256) →
      (anx7688_ocm_frame cmd data).sum % 256 = 0) ∧
    (pkt.length = 32 → 1 ≤ pkt.getD 0 0 → pkt.getD 0 0 ≤ 30 →
      (pkt.take (pkt.getD 0 0 + 2)).sum % 256 = 0 →
      (anx7688_receive_msg env now pkt s).fst = 0) := by
  constructor
  · intro _ _ _
    simp only [anx7688_ocm_frame, List.sum_append, List.sum_cons,
      List.sum_nil]
    omega
  · intro _ h1 h30 hsum
    have hne : ¬(pkt.getD 0 0 = 0 ∨ pkt.getD 0 0 > 30) := by omega
    simp only [anx7688_receive_msg]
    rw [if_neg hne, if_neg (by simpa using hsum)]

/-- Witness for C1 at the ACCEPT command with payload [1, 2, 3] and at
the concrete valid block pktAccept. -/
theorem claim_C1_witness :
    (5 < 256 ∧ ([1, 2, 3] : List Nat).length ≤ 29 ∧
      (anx7688_ocm_frame 5 [1, 2, 3]).sum % 256 = 0) ∧
    (pktAccept.length = 32 ∧ 1 ≤ pktAccept.getD 0 0 ∧
      pktAccept.getD 0 0 ≤ 30 ∧
      (pktAccept.take (pktAccept.getD 0 0 + 2)).sum % 256 = 0 ∧
      (anx7688_receive_msg pdEnv50_30 0 pktAccept anxInit).fst = 0) := by
  have h := claim_C1 5 [1, 2, 3] pdEnv50_30 0 pktAccept anxInit
  refine ⟨⟨by decide, by decide, h.1 (by decide) (by decide) (by decide)⟩,
    by decide, by decide, by decide, by decide,
    h.2 (by decide) (by decide) (by decide) (by decide)⟩

/-- C2: for every prior session state, anx7688_disconnect clears the
current-update deadline, leaves both rails off, powers the chip off,
clears pd_capable, releases the partner, resets port roles to
Sink/Device/USB-mode/VCONN-Sink, parks the role switch, programs a
500 mA input current limit, takes the input path offline, re-enables
BC1.2 detection and clears the Connected flag. -/
theorem claim_C2 (s : Anx7688) :
    (anx7688_disconnect s).currentUpdateDeadline = 0 ∧
    (anx7688_disconnect s).vconnOn = false ∧
    (anx7688_disconnect s).vbusOn = false ∧
    (anx7688_disconnect s).powered = false ∧
    (anx7688_disconnect s).pdCapable = false ∧
    (anx7688_disconnect s).partner = none ∧
    (anx7688_disconnect s).pwrRole = TYPEC_SINK ∧
    (anx7688_disconnect s).dataRole = TYPEC_DEVICE ∧
    (anx7688_disconnect s).portPwrRole = TYPEC_SINK ∧
    (anx7688_disconnect s).portDataRole = TYPEC_DEVICE ∧
    (anx7688_disconnect s).portPwrOpmode = TYPEC_PWR_MODE_USB ∧
    (anx7688_disconnect s).portVconnRole = TYPEC_SINK ∧
    (anx7688_disconnect s).roleSw = USB_ROLE_NONE ∧
    (anx7688_disconnect s).psyInputCurrentLimit = 500 * 1000 ∧
    (anx7688_disconnect s).psyOnline = false ∧
    (anx7688_disconnect s).psyBcEnabled = true ∧
    (anx7688_disconnect s).connected = false := by
  cases h1 : s.vconnOn <;> cases h2 : s.vbusOn <;>
    simp [anx7688_disconnect, anx7688_set_hdmi_hpd, h1, h2] <;>
    split <;> simp

/-- C3: anx7688_connect sets the Connected flag exactly when it
returns success; every failure path leaves VCONN and chip power
disabled and returns the failing step's error (the VCONN enable
error, -ETIMEDOUT with the sticky FW_FAILED flag when the
firmware-loaded bit never sets during the 100 polls, the firmware
version read error, the first failing configuration write or OCM
send, or the partner registration error).  Hypotheses hc and hv are
the call-site state (connect runs only while disconnected). -/
theorem claim_C3 (env : ConnectEnv) (now : Int) (s : Anx7688) (e : Int)
    (hc : s.connected = false) (hv : s.vconnOn = false) :
    ((anx7688_connect env now s).fst = 0 ↔
      (anx7688_connect env now s).snd.connected = true) ∧
    ((anx7688_connect env now s).fst ≠ 0 →
      (anx7688_connect env now s).snd.vconnOn = false ∧
      (anx7688_connect env now s).snd.powered = false ∧
      (anx7688_connect env now s).snd.connected = false) ∧
    (env.vconnEnable ≠ 0 →
      (anx7688_connect env now s).fst = env.vconnEnable) ∧
    ((∀ i, i < 100 → ¬(0 ≤ env.fwRead i ∧ env.fwRead i % 2 = 1)) →
      env.vconnEnable = 0 →
      (anx7688_connect env now s).fst = -110 ∧
      (anx7688_connect env now s).snd.fwFailed = true ∧
      (anx7688_connect env now s).snd.vconnOn = false ∧
      (anx7688_connect env now s).snd.powered = false) ∧
    (env.vconnEnable = 0 →
      (∃ i, i < 100 ∧ 0 ≤ env.fwRead i ∧ env.fwRead i % 2 = 1) →
      env.fwVersionRead < 0 →
      (anx7688_connect env now s).fst = env.fwVersionRead) ∧
    (env.vconnEnable = 0 →
      (∃ i, i < 100 ∧ 0 ≤ env.fwRead i ∧ env.fwRead i % 2 = 1) →
      ¬env.fwVersionRead < 0 →
      (anx7688_connect_steps env).find? (fun r => decide (r ≠ 0)) = some e →
      (anx7688_connect env now s).fst = e) ∧
    (env.vconnEnable = 0 →
      (∃ i, i < 100 ∧ 0 ≤ env.fwRead i ∧ env.fwRead i % 2 = 1) →
      ¬env.fwVersionRead < 0 →
      (anx7688_connect_steps env).find? (fun r => decide (r ≠ 0)) = none →
      env.partnerRegister ≠ 0 →
      (anx7688_connect env now s).fst = env.partnerRegister) := by
  by_cases hvc : env.vconnEnable = 0
  case neg =>
    simp only [anx7688_connect, if_pos hvc, if_neg hvc]
    exact ⟨by simp [hvc, hc], by simp [hv, hc], by simp,
      fun _ h0 => absurd h0 hvc, fun h0 _ _ => absurd h0 hvc,
      fun h0 _ _ _ => absurd h0 hvc, fun h0 _ _ _ _ => absurd h0 hvc⟩
  case pos =>
    have hvcn : ¬env.vconnEnable ≠ 0 := by simp [hvc]
    simp only [anx7688_connect, if_neg hvcn]
    cases hfw : (List.range 100).find?
        (fun i => decide (0 ≤ env.fwRead i ∧ env.fwRead i % 2 = 1)) with
    | none =>
      have hnone : ∀ i, i < 100 →
          ¬(0 ≤ env.fwRead i ∧ env.fwRead i % 2 = 1) := by
        intro i hi
        have := List.find?_eq_none.mp hfw i (List.mem_range.mpr hi)
        simpa using this
      refine ⟨by simp [anx7688_connect_unwind, hc],
        by simp [anx7688_connect_unwind, hc],
        fun h => absurd hvc h,
        fun _ _ => by simp [anx7688_connect_unwind],
        fun _ hex _ => ?_, fun _ hex _ _ => ?_, fun _ hex _ _ _ => ?_⟩
      all_goals
        obtain ⟨i, hi, hp⟩ := hex
        exact absurd hp (hnone i hi)
    | some j =>
      have hj : ∃ i, i < 100 ∧ 0 ≤ env.fwRead i ∧ env.fwRead i % 2 = 1 := by
        have := List.find?_some hfw
        have hmem := List.mem_of_find?_eq_some hfw
        exact ⟨j, by simpa using List.mem_range.mp hmem, by simpa using this⟩
      by_cases hfv : env.fwVersionRead < 0
      case pos =>
        simp only [if_pos hfv]
        refine ⟨by simp [anx7688_connect_unwind, hc]; omega,
          by simp [anx7688_connect_unwind, hc],
          fun h => absurd hvc h, fun hnone _ => ?_,
          fun _ _ _ => by first | rfl | trivial,
          fun _ _ hnfv _ => absurd hfv hnfv,
          fun _ _ hnfv _ _ => absurd hfv hnfv⟩
        obtain ⟨i, hi, hp⟩ := hj
        exact absurd hp (hnone i hi)
      case neg =>
        simp only [if_neg hfv]
        cases hst : (anx7688_connect_steps env).find?
            (fun r => decide (r ≠ 0)) with
        | some e2 =>
          have he2 : e2 ≠ 0 := by simpa using List.find?_some hst
          refine ⟨by simp [anx7688_connect_unwind, hc, he2],
            by simp [anx7688_connect_unwind, hc],
            fun h => absurd hvc h, fun hnone _ => ?_,
            fun _ _ hlt => absurd hlt hfv, fun _ _ _ hsome => ?_,
            fun _ _ _ hnone2 _ => ?_⟩
          · obtain ⟨i, hi, hp⟩ := hj
            exact absurd hp (hnone i hi)
          · have he : e2 = e := Option.some.inj hsome
            exact he ▸ rfl
          · exact absurd hnone2 (by simp)
        | none =>
          by_cases hpr : env.partnerRegister = 0
          case pos =>
            simp only [if_neg (by simp [hpr] : ¬env.partnerRegister ≠ 0)]
            refine ⟨by simp, fun h => absurd rfl h,
              fun h => absurd hvc h, fun hnone _ => ?_,
              fun _ _ hlt => absurd hlt hfv, fun _ _ _ hsome => ?_,
              fun _ _ _ _ hne => absurd hpr hne⟩
            · obtain ⟨i, hi, hp⟩ := hj
              exact absurd hp (hnone i hi)
            · exact absurd hsome (by simp)
          case neg =>
            simp only [if_pos (by simpa using hpr : env.partnerRegister ≠ 0)]
            refine ⟨by simp [anx7688_connect_unwind, hc, hpr],
              by simp [anx7688_connect_unwind, hc],
              fun h => absurd hvc h, fun hnone _ => ?_,
              fun _ _ hlt => absurd hlt hfv, fun _ _ _ hsome => ?_,
              fun _ _ _ _ _ => by first | rfl | trivial⟩
            · obtain ⟨i, hi, hp⟩ := hj
              exact absurd hp (hnone i hi)
            · exact absurd hsome (by simp)

/-- A ConnectEnv in which every step succeeds: firmware-loaded bit
reads 1 immediately, and all writes, sends and the partner
registration return 0. -/
def connectEnvOk : ConnectEnv :=
  { vconnEnable := 0, fwRead := fun _ => 1, fwVersionRead := 0,
    regWrite := fun _ _ => 0, sendMsg := fun _ => 0, partnerRegister := 0 }

/-- A ConnectEnv in which the MAX_VOLTAGE configuration write (the
seventh step of the configuration sequence) fails with -EIO while
everything before it succeeds. -/
def connectEnvWriteFail : ConnectEnv :=
  { connectEnvOk with
    regWrite := fun addr _ => if addr = 0x1b then -5 else 0 }

/-- Witness for C3 at the all-success environment and at an
environment whose MAX_VOLTAGE write fails with -EIO, both from the
initial (disconnected) state. -/
theorem claim_C3_witness :
    (anxInit.connected = false ∧ anxInit.vconnOn = false ∧
      connectEnvWriteFail.vconnEnable = 0 ∧
      (0 < 100 ∧ 0 ≤ connectEnvWriteFail.fwRead 0 ∧
        connectEnvWriteFail.fwRead 0 % 2 = 1) ∧
      ¬connectEnvWriteFail.fwVersionRead < 0 ∧
      (anx7688_connect_steps connectEnvWriteFail).find?
        (fun r => decide (r ≠ 0)) = some (-5)) ∧
    ((anx7688_connect connectEnvOk 0 anxInit).fst = 0 ↔
      (anx7688_connect connectEnvOk 0 anxInit).snd.connected = true) ∧
    (anx7688_connect connectEnvWriteFail 0 anxInit).fst = -5 ∧
    (anx7688_connect connectEnvWriteFail 0 anxInit).snd.vconnOn = false ∧
    (anx7688_connect connectEnvWriteFail 0 anxInit).snd.powered = false := by
  have h1 := claim_C3 connectEnvOk 0 anxInit 0 (by decide) (by decide)
  have h2 := claim_C3 connectEnvWriteFail 0 anxInit (-5) (by decide)
    (by decide)
  have hfst : (anx7688_connect connectEnvWriteFail 0 anxInit).fst = -5 :=
    h2.2.2.2.2.2.1 (by decide) ⟨0, by decide, by decide, by decide⟩
      (by decide) (by decide)
  have hunw := h2.2.1 (by rw [hfst]; decide)
  exact ⟨⟨by decide, by decide, by decide,
      ⟨by decide, by decide, by decide⟩, by decide, by decide⟩,
    h1.1, hfst, hunw.1, hunw.2.1⟩

/-- A CC nibble that is not 4, 8 or 12 never classifies: the
anx7688_cc_status default. -/
theorem anx7688_cc_status_unclassified (v : Int)
    (h4 : v ≠ 4) (h8 : v ≠ 8) (h12 : v ≠ 12) : anx7688_cc_status v = -1 := by
  simp only [anx7688_cc_status, TYPEC_PWR_MODE_USB, TYPEC_PWR_MODE_1_5A,
    TYPEC_PWR_MODE_3_0A]
  split_ifs <;> omega


/-- The resolved power mode is reflected on the port by
anx7688_handle_current_update. -/
theorem anx7688_handle_current_update_opmode (env : CurrentUpdateEnv)
    (s : Anx7688) :
    (anx7688_handle_current_update env s).portPwrOpmode =
      anx7688_current_pwr_mode s := by
  simp only [anx7688_handle_current_update]

/-- The computed limit is stored in input_current_limit by
anx7688_handle_current_update. -/
theorem anx7688_handle_current_update_limit (env : CurrentUpdateEnv)
    (s : Anx7688) :
    (anx7688_handle_current_update env s).inputCurrentLimit =
      anx7688_current_limit s := by
  simp only [anx7688_handle_current_update]
  split_ifs <;> rfl

/-- The power-supply effects of anx7688_handle_current_update: a
nonzero limit disables BC1.2 and programs the limit; a zero limit
programs 500 mA when the BC1.2 query fails or BC1.2 is off, and
leaves the property alone otherwise. -/
theorem anx7688_handle_current_update_psy (env : CurrentUpdateEnv)
    (s : Anx7688) :
    (anx7688_current_limit s ≠ 0 →
      (anx7688_handle_current_update env s).psyBcEnabled = false ∧
      (anx7688_handle_current_update env s).psyInputCurrentLimit =
        anx7688_current_limit s * 1000) ∧
    (anx7688_current_limit s = 0 → env.getBcRet ≠ 0 ∨ env.getBcVal = 0 →
      (anx7688_handle_current_update env s).psyInputCurrentLimit =
        500 * 1000) ∧
    (anx7688_current_limit s = 0 → env.getBcRet = 0 ∧ env.getBcVal ≠ 0 →
      (anx7688_handle_current_update env s).psyInputCurrentLimit =
        s.psyInputCurrentLimit) := by
  simp only [anx7688_handle_current_update]
  refine ⟨fun h => ?_, fun h hbc => ?_, fun h hbc => ?_⟩
  · rw [if_pos h]
    exact ⟨rfl, rfl⟩
  · rw [if_neg (by simp [h]), if_pos hbc]
  · rw [if_neg (by simp [h]), if_neg (by simp [hbc.1, hbc.2])]

/-- C4: anx7688_handle_current_update when pd_capable is false maps a
CC-status nibble 8 to 1.5A/1500 mA and 12 to 3.0A/3000 mA with the
low nibble classifying first, and defaults to USB/0 when neither
nibble is 4, 8 or 12 (then falling back to a programmed 500 mA limit
when the BC1.2 query fails or BC1.2 is off, and deferring to BC1.2
otherwise); when pd_capable is true the mode is PD with limit
pd_current_limit. -/
theorem claim_C4 (env : CurrentUpdateEnv) (s : Anx7688)
    (h0 : 0 ≤ s.lastCcStatus) (h256 : s.lastCcStatus < 256) :
    (s.pdCapable = true →
      (anx7688_handle_current_update env s).portPwrOpmode =
        TYPEC_PWR_MODE_PD ∧
      (anx7688_handle_current_update env s).inputCurrentLimit =
        s.pdCurrentLimit) ∧
    (s.pdCapable = false →
      (s.lastCcStatus % 16 = 8 →
        (anx7688_handle_current_update env s).portPwrOpmode =
          TYPEC_PWR_MODE_1_5A ∧
        (anx7688_handle_current_update env s).inputCurrentLimit = 1500 ∧
        (anx7688_handle_current_update env s).psyInputCurrentLimit =
          1500 * 1000 ∧
        (anx7688_handle_current_update env s).psyBcEnabled = false) ∧
      (s.lastCcStatus % 16 = 12 →
        (anx7688_handle_current_update env s).portPwrOpmode =
          TYPEC_PWR_MODE_3_0A ∧
        (anx7688_handle_current_update env s).inputCurrentLimit = 3000 ∧
        (anx7688_handle_current_update env s).psyInputCurrentLimit =
          3000 * 1000 ∧
        (anx7688_handle_current_update env s).psyBcEnabled = false) ∧
      (s.lastCcStatus % 16 ≠ 4 → s.lastCcStatus % 16 ≠ 8 →
        s.lastCcStatus % 16 ≠ 12 → s.lastCcStatus / 16 % 16 = 8 →
        (anx7688_handle_current_update env s).portPwrOpmode =
          TYPEC_PWR_MODE_1_5A ∧
        (anx7688_handle_current_update env s).inputCurrentLimit = 1500) ∧
      (s.lastCcStatus % 16 ≠ 4 → s.lastCcStatus % 16 ≠ 8 →
        s.lastCcStatus % 16 ≠ 12 → s.lastCcStatus / 16 % 16 = 12 →
        (anx7688_handle_current_update env s).portPwrOpmode =
          TYPEC_PWR_MODE_3_0A ∧
        (anx7688_handle_current_update env s).inputCurrentLimit = 3000) ∧
      (s.lastCcStatus % 16 ≠ 4 → s.lastCcStatus % 16 ≠ 8 →
        s.lastCcStatus % 16 ≠ 12 → s.lastCcStatus / 16 % 16 ≠ 4 →
        s.lastCcStatus / 16 % 16 ≠ 8 → s.lastCcStatus / 16 % 16 ≠ 12 →
        (anx7688_handle_current_update env s).portPwrOpmode =
          TYPEC_PWR_MODE_USB ∧
        (anx7688_handle_current_update env s).inputCurrentLimit = 0 ∧
        (env.getBcRet ≠ 0 ∨ env.getBcVal = 0 →
          (anx7688_handle_current_update env s).psyInputCurrentLimit =
            500 * 1000) ∧
        (env.getBcRet = 0 ∧ env.getBcVal ≠ 0 →
          (anx7688_handle_current_update env s).psyInputCurrentLimit =
            s.psyInputCurrentLimit))) := by
  have hcc : s.lastCcStatus % 4294967296 = s.lastCcStatus :=
    Int.emod_eq_of_lt h0 (by omega)
  constructor
  · intro hpd
    have hmode : anx7688_current_pwr_mode s = TYPEC_PWR_MODE_PD := by
      simp [anx7688_current_pwr_mode, hpd]
    have hlim : anx7688_current_limit s = s.pdCurrentLimit := by
      simp [anx7688_current_limit, hmode, TYPEC_PWR_MODE_PD,
        TYPEC_PWR_MODE_1_5A, TYPEC_PWR_MODE_3_0A]
    rw [anx7688_handle_current_update_opmode,
      anx7688_handle_current_update_limit, hmode, hlim]
    exact ⟨rfl, rfl⟩
  · intro hpd
    refine ⟨fun hlow => ?_, fun hlow => ?_,
      fun h4 h8 h12 hhigh => ?_, fun h4 h8 h12 hhigh => ?_,
      fun h4 h8 h12 hh4 hh8 hh12 => ?_⟩
    · have hmode : anx7688_current_pwr_mode s = TYPEC_PWR_MODE_1_5A := by
        simp only [anx7688_current_pwr_mode, hcc, hpd, hlow,
          Bool.false_eq_true, if_false,
          if_neg (by omega : ¬s.lastCcStatus < 0)]
        norm_num [anx7688_cc_status, TYPEC_PWR_MODE_1_5A]
      have hlim : anx7688_current_limit s = 1500 := by
        simp [anx7688_current_limit, hmode, TYPEC_PWR_MODE_1_5A]
      have hpsy := (anx7688_handle_current_update_psy env s).1
        (by rw [hlim]; norm_num)
      rw [anx7688_handle_current_update_opmode,
        anx7688_handle_current_update_limit, hmode, hlim]
      exact ⟨rfl, rfl, by rw [hpsy.2, hlim], hpsy.1⟩
    · have hmode : anx7688_current_pwr_mode s = TYPEC_PWR_MODE_3_0A := by
        simp only [anx7688_current_pwr_mode, hcc, hpd, hlow,
          Bool.false_eq_true, if_false,
          if_neg (by omega : ¬s.lastCcStatus < 0)]
        norm_num [anx7688_cc_status, TYPEC_PWR_MODE_3_0A]
      have hlim : anx7688_current_limit s = 3000 := by
        simp [anx7688_current_limit, hmode, TYPEC_PWR_MODE_1_5A,
          TYPEC_PWR_MODE_3_0A]
      have hpsy := (anx7688_handle_current_update_psy env s).1
        (by rw [hlim]; norm_num)
      rw [anx7688_handle_current_update_opmode,
        anx7688_handle_current_update_limit, hmode, hlim]
      exact ⟨rfl, rfl, by rw [hpsy.2, hlim], hpsy.1⟩
    · have hmode : anx7688_current_pwr_mode s = TYPEC_PWR_MODE_1_5A := by
        simp only [anx7688_current_pwr_mode, hcc, hpd,
          anx7688_cc_status_unclassified (s.lastCcStatus % 16) h4 h8 h12,
          hhigh, Bool.false_eq_true, if_false,
          if_neg (by omega : ¬s.lastCcStatus < 0)]
        norm_num [anx7688_cc_status, TYPEC_PWR_MODE_1_5A]
      have hlim : anx7688_current_limit s = 1500 := by
        simp [anx7688_current_limit, hmode, TYPEC_PWR_MODE_1_5A]
      rw [anx7688_handle_current_update_opmode,
        anx7688_handle_current_update_limit, hmode, hlim]
      exact ⟨rfl, rfl⟩
    · have hmode : anx7688_current_pwr_mode s = TYPEC_PWR_MODE_3_0A := by
        simp only [anx7688_current_pwr_mode, hcc, hpd,
          anx7688_cc_status_unclassified (s.lastCcStatus % 16) h4 h8 h12,
          hhigh, Bool.false_eq_true, if_false,
          if_neg (by omega : ¬s.lastCcStatus < 0)]
        norm_num [anx7688_cc_status, TYPEC_PWR_MODE_3_0A]
      have hlim : anx7688_current_limit s = 3000 := by
        simp [anx7688_current_limit, hmode, TYPEC_PWR_MODE_1_5A,
          TYPEC_PWR_MODE_3_0A]
      rw [anx7688_handle_current_update_opmode,
        anx7688_handle_current_update_limit, hmode, hlim]
      exact ⟨rfl, rfl⟩
    · have hmode : anx7688_current_pwr_mode s = TYPEC_PWR_MODE_USB := by
        simp only [anx7688_current_pwr_mode, hcc, hpd,
          anx7688_cc_status_unclassified (s.lastCcStatus % 16) h4 h8 h12,
          anx7688_cc_status_unclassified (s.lastCcStatus / 16 % 16)
            hh4 hh8 hh12,
          Bool.false_eq_true, if_false,
          if_neg (by omega : ¬s.lastCcStatus < 0)]
        norm_num [TYPEC_PWR_MODE_USB]
      have hlim : anx7688_current_limit s = 0 := by
        simp [anx7688_current_limit, hmode, TYPEC_PWR_MODE_USB,
          TYPEC_PWR_MODE_1_5A, TYPEC_PWR_MODE_3_0A, TYPEC_PWR_MODE_PD]
      have hpsy := anx7688_handle_current_update_psy env s
      rw [anx7688_handle_current_update_opmode,
        anx7688_handle_current_update_limit, hmode, hlim]
      exact ⟨rfl, rfl, hpsy.2.1 hlim, hpsy.2.2 hlim⟩

/-- The initial state with a cached CC status whose low nibble
advertises SNK.Power1.5 (value 8). -/
def anxCc8 : Anx7688 := { anxInit with lastCcStatus := 8 }

/-- A CurrentUpdateEnv whose BC1.2 status query succeeds with BC1.2
enabled. -/
def cuEnvBcOn : CurrentUpdateEnv := { getBcRet := 0, getBcVal := 1 }

/-- Witness for C4 at a state whose low CC nibble reads 8. -/
theorem claim_C4_witness :
    (0 ≤ anxCc8.lastCcStatus ∧ anxCc8.lastCcStatus < 256 ∧
      anxCc8.pdCapable = false ∧ anxCc8.lastCcStatus % 16 = 8) ∧
    ((anx7688_handle_current_update cuEnvBcOn anxCc8).portPwrOpmode =
        TYPEC_PWR_MODE_1_5A ∧
      (anx7688_handle_current_update cuEnvBcOn anxCc8).inputCurrentLimit =
        1500 ∧
      (anx7688_handle_current_update cuEnvBcOn anxCc8).psyInputCurrentLimit =
        1500 * 1000 ∧
      (anx7688_handle_current_update cuEnvBcOn anxCc8).psyBcEnabled =
        false) := by
  have h := claim_C4 cuEnvBcOn anxCc8 (by decide) (by decide)
  exact ⟨⟨by decide, by decide, by decide, by decide⟩,
    (h.2 (by decide)).1 (by decide)⟩

/-- C5: a well-formed source-capability report makes the handler set
pd_capable, compute pd_current_limit = max_power_raw * 5000 /
max_voltage_raw from the negotiated-result registers, and arm the
current-update deadline 500 ms out, returning success. -/
theorem claim_C5 (env : PdEnv) (msg : List Nat) (len : Nat) (now : Int)
    (s : Anx7688) (hlen : len % 4 = 0)
    (hv : 0 < env.readMaxV) (hp : 0 ≤ env.readMaxP) :
    (anx7688_handle_pd_message env 0x00 msg len now s).fst = 0 ∧
    (anx7688_handle_pd_message env 0x00 msg len now s).snd.pdCapable = true ∧
    (anx7688_handle_pd_message env 0x00 msg len now s).snd.pdCurrentLimit = env.readMaxP * 5000 / env.readMaxV ∧
    (anx7688_handle_pd_message env 0x00 msg len now s).snd.currentUpdateDeadline = now + 500 := by
  have h1 : ¬(len % 4 ≠ 0) := by simp [hlen]
  have h2 : ¬(env.readMaxV < 0) := by omega
  have h3 : ¬(env.readMaxV = 0) := by omega
  have h4 : ¬(env.readMaxP < 0) := by omega
  simp only [anx7688_handle_pd_message]
  split_ifs <;> first | exact ⟨rfl, rfl, rfl, rfl⟩ | (exfalso; omega) | simp_all

/-- Witness for C5 at max-voltage-raw 50 (5 V) and max-power-raw 30
(15 W): the computed limit is 30 * 5000 / 50 = 3000 mA. -/
theorem claim_C5_witness :
    ((4 : Nat) % 4 = 0 ∧ (0 : Int) < pdEnv50_30.readMaxV ∧
      (0 : Int) ≤ pdEnv50_30.readMaxP) ∧
    (anx7688_handle_pd_message pdEnv50_30 0x00 [] 4 0 anxInit).fst = 0 ∧
    (anx7688_handle_pd_message pdEnv50_30 0x00 [] 4 0 anxInit).snd.pdCapable = true ∧
    (anx7688_handle_pd_message pdEnv50_30 0x00 [] 4 0 anxInit).snd.pdCurrentLimit = 3000 ∧
    (anx7688_handle_pd_message pdEnv50_30 0x00 [] 4 0 anxInit).snd.currentUpdateDeadline = 0 + 500 := by
  have h := claim_C5 pdEnv50_30 [] 4 0 anxInit (by decide) (by decide)
    (by decide)
  exact ⟨⟨by decide, by decide, by decide⟩, h.1, h.2.1,
    h.2.2.1.trans (by decide), h.2.2.2⟩

/-- C6: a Hard-Reset message while pd_capable takes the vbus_in path
offline and arms the current-update deadline 3000 ms out, and the
anx7688_work deadline gate keeps the current-limit engine from
running at any time up to that deadline; while not pd_capable the
handler changes nothing. -/
theorem claim_C6 (env : PdEnv) (msg : List Nat) (len : Nat) (now t : Int)
    (s : Anx7688) :
    (s.pdCapable = true →
      (anx7688_handle_pd_message env 0xf2 msg len now s).fst = 0 ∧
      (anx7688_handle_pd_message env 0xf2 msg len now s).snd.psyOnline = false ∧
      (anx7688_handle_pd_message env 0xf2 msg len now s).snd.currentUpdateDeadline = now + 3000 ∧
      (t ≤ now + 3000 →
        anx7688_work_current_update_due t
          (anx7688_handle_pd_message env 0xf2 msg len now s).snd = false)) ∧
    (s.pdCapable = false →
      anx7688_handle_pd_message env 0xf2 msg len now s = (0, s)) := by
  constructor
  · intro hpd
    have e : anx7688_handle_pd_message env 0xf2 msg len now s =
        (0, { s with psyOnline := false,
                     currentUpdateDeadline := now + 3000 }) := by
      simp only [anx7688_handle_pd_message]
      split_ifs <;> first | rfl | (exfalso; omega) | simp_all
    rw [e]
    refine ⟨rfl, rfl, rfl, fun ht => ?_⟩
    simp only [anx7688_work_current_update_due]
    have hlt : ¬(now + 3000 < t) := by omega
    simp [hlt]
  · intro hpd
    simp only [anx7688_handle_pd_message]
    split_ifs <;> first | rfl | (exfalso; omega) | simp_all

/-- Witness for C6 at a pd-capable state (and at a non-pd-capable
state for the second conjunct), with the gate checked at the very
moment of the reset. -/
theorem claim_C6_witness :
    ({ anxInit with pdCapable := true }.pdCapable = true ∧
      (100 : Int) ≤ 100 + 3000) ∧
    (anx7688_handle_pd_message pdEnv50_30 0xf2 [] 0 100 { anxInit with pdCapable := true }).snd.psyOnline = false ∧
    anx7688_work_current_update_due 100
      (anx7688_handle_pd_message pdEnv50_30 0xf2 [] 0 100 { anxInit with pdCapable := true }).snd = false ∧
    (anxInit.pdCapable = false ∧
      anx7688_handle_pd_message pdEnv50_30 0xf2 [] 0 100 anxInit = (0, anxInit)) := by
  have h := claim_C6 pdEnv50_30 [] 0 100 100
    { anxInit with pdCapable := true }
  have h2 := claim_C6 pdEnv50_30 [] 0 100 100 anxInit
  exact ⟨⟨by decide, by decide⟩, (h.1 (by decide)).2.1,
    (h.1 (by decide)).2.2.2 (by decide),
    by decide, h2.2 (by decide)⟩

/-- C7: every received block whose declared length is 0 or greater
than 30, or whose first length + 2 bytes do not sum to 0 mod 256,
makes anx7688_receive_msg fail with -EINVAL and leaves the session
state exactly unchanged. -/
theorem claim_C7 (env : PdEnv) (now : Int) (pkt : List Nat) (s : Anx7688)
    (h : pkt.getD 0 0 = 0 ∨ pkt.getD 0 0 > 30 ∨
      (pkt.take (pkt.getD 0 0 + 2)).sum % 256 ≠ 0) :
    anx7688_receive_msg env now pkt s = (-22, s) := by
  by_cases h1 : pkt.getD 0 0 = 0 ∨ pkt.getD 0 0 > 30
  · simp only [anx7688_receive_msg, if_pos h1]
  · have hsum : (pkt.take (pkt.getD 0 0 + 2)).sum % 256 ≠ 0 := by tauto
    simp only [anx7688_receive_msg, if_neg h1, if_pos hsum]

/-- Witness for C7 at the concrete bad-checksum block pktBadSum. -/
theorem claim_C7_witness :
    (pktBadSum.getD 0 0 = 0 ∨ pktBadSum.getD 0 0 > 30 ∨
      (pktBadSum.take (pktBadSum.getD 0 0 + 2)).sum % 256 ≠ 0) ∧
    anx7688_receive_msg pdEnv50_30 0 pktBadSum anxInit = (-22, anxInit) := by
  exact ⟨by decide,
    claim_C7 pdEnv50_30 0 pktBadSum anxInit (by decide)⟩

/-- One unfolding step of the drain-wait loop when the occupancy read
comes back less than or equal to zero. -/
theorem sendWaitLoop_stop (poll : Nat → Int) (i fuel : Nat)
    (h : poll i ≤ 0) : sendWaitLoop poll i (fuel + 1) = poll i := by
  simp [sendWaitLoop, h]

/-- When every occupancy read of the drain-wait loop is positive the
loop exhausts its fuel and returns -ETIMEDOUT. -/
theorem sendWaitLoop_timeout (poll : Nat → Int) (fuel : Nat) :
    ∀ i, i + fuel ≤ 300 → (∀ j, j < 300 → 0 < poll j) →
      sendWaitLoop poll i fuel = -110 := by
  induction fuel with
  | zero => intro i _ _; rfl
  | succ f ih =>
    intro i hle hall
    have hp : 0 < poll i := hall i (by omega)
    rw [show sendWaitLoop poll i (f + 1) =
        if poll i ≤ 0 then poll i else sendWaitLoop poll (i + 1) f from rfl]
    rw [if_neg (by omega : ¬poll i ≤ 0)]
    exact ih (i + 1) (by omega) hall

/-- C8: anx7688_send_ocm_message fails with -EBUSY and transmits
nothing when the occupancy indicator reads non-empty before
transmission; and when the queue stays occupied through all 300 polls
of the 30 ms drain wait it fails with -ETIMEDOUT after the single
transmission, with no retransmission in either case. -/
theorem claim_C8 (env : SendEnv) (cmd : Nat) (data : List Nat)
    (hlen : data.length ≤ 29) :
    (env.preRead > 0 →
      anx7688_send_ocm_message env cmd data = (-16, none)) ∧
    (env.preRead = 0 → (∀ j, j < 300 → 0 < env.poll j) →
      (anx7688_send_ocm_message env cmd data).fst = -110 ∧
      (anx7688_send_ocm_message env cmd data).snd =
        some (anx7688_ocm_frame cmd data)) := by
  constructor
  · intro h
    simp only [anx7688_send_ocm_message,
      if_neg (by omega : ¬data.length > 29),
      if_pos (by omega : env.preRead ≠ 0)]
  · intro hpre hall
    simp only [anx7688_send_ocm_message,
      if_neg (by omega : ¬data.length > 29),
      if_neg (by omega : ¬env.preRead ≠ 0)]
    exact ⟨sendWaitLoop_timeout env.poll 300 0 (by omega) hall, trivial⟩

/-- A SendEnv whose occupancy pre-read reports a non-empty queue. -/
def sendEnvBusy : SendEnv :=
  { preRead := 1, blockWrite := 0, poll := fun _ => 1 }

/-- A SendEnv whose queue never drains: every occupancy read is 1. -/
def sendEnvStuck : SendEnv :=
  { preRead := 0, blockWrite := 0, poll := fun _ => 1 }

/-- Witness for C8 at the busy and the never-draining environments,
sending command 0x10 (PSWAP_REQ) with an empty payload. -/
theorem claim_C8_witness :
    (([] : List Nat).length ≤ 29 ∧ sendEnvBusy.preRead > 0 ∧
      sendEnvStuck.preRead = 0) ∧
    anx7688_send_ocm_message sendEnvBusy 0x10 [] = (-16, none) ∧
    (anx7688_send_ocm_message sendEnvStuck 0x10 []).fst = -110 ∧
    (anx7688_send_ocm_message sendEnvStuck 0x10 []).snd =
      some (anx7688_ocm_frame 0x10 []) := by
  have hb := (claim_C8 sendEnvBusy 0x10 [] (by decide)).1 (by decide)
  have hs := (claim_C8 sendEnvStuck 0x10 [] (by decide)).2 (by decide)
    (fun j _ => by norm_num [sendEnvStuck])
  exact ⟨⟨by decide, by decide, by decide⟩, hb, hs.1, hs.2⟩

/-- A SendEnv whose occupancy pre-read fails with -EIO. -/
def sendEnvReadFailed : SendEnv :=
  { preRead := -5, blockWrite := 0, poll := fun _ => 0 }

/-- Counterexample to C9 as stated: when the pre-transmission read of
the send-queue occupancy register fails with -EIO (-5),
anx7688_send_ocm_message returns -EBUSY (-16), not the I/O error. -/
theorem claim_C9_counterexample :
    (anx7688_send_ocm_message sendEnvReadFailed 0x10 []).fst = -16 ∧
    (anx7688_send_ocm_message sendEnvReadFailed 0x10 []).fst ≠ -5 := by
  decide

/-- C9 (amended): register I/O failures are propagated as that I/O
error by the drain-wait poll of anx7688_send_ocm_message and by the
negotiated-result register reads of the source-capability handler;
the pre-transmission occupancy read is the exception: its failure is
reported as -EBUSY, conflated with a full queue. -/
theorem claim_C9 (env : SendEnv) (penv : PdEnv) (cmd : Nat)
    (data msg : List Nat) (len : Nat) (now : Int) (s : Anx7688) :
    (data.length ≤ 29 → env.preRead = 0 → env.poll 0 < 0 →
      (anx7688_send_ocm_message env cmd data).fst = env.poll 0) ∧
    (data.length ≤ 29 → env.preRead < 0 →
      (anx7688_send_ocm_message env cmd data).fst = -16) ∧
    (len % 4 = 0 → penv.readMaxV < 0 →
      (anx7688_handle_pd_message penv 0x00 msg len now s).fst =
        penv.readMaxV) ∧
    (len % 4 = 0 → 0 < penv.readMaxV → penv.readMaxP < 0 →
      (anx7688_handle_pd_message penv 0x00 msg len now s).fst =
        penv.readMaxP) := by
  refine ⟨fun hlen hpre hp => ?_, fun hlen hpre => ?_,
    fun hlen hv => ?_, fun hlen hv hp => ?_⟩
  · simp only [anx7688_send_ocm_message,
      if_neg (by omega : ¬data.length > 29),
      if_neg (by omega : ¬env.preRead ≠ 0)]
    show sendWaitLoop env.poll 0 (299 + 1) = env.poll 0
    exact sendWaitLoop_stop env.poll 0 299 (by omega)
  · simp only [anx7688_send_ocm_message,
      if_neg (by omega : ¬data.length > 29),
      if_pos (by omega : env.preRead ≠ 0)]
  · simp only [anx7688_handle_pd_message]
    split_ifs <;> first | rfl | (exfalso; omega) | simp_all
  · simp only [anx7688_handle_pd_message]
    split_ifs <;> first | rfl | (exfalso; omega) | simp_all

/-- A SendEnv that transmits and then sees the drain poll fail with
-EIO. -/
def sendEnvPollFailed : SendEnv :=
  { preRead := 0, blockWrite := 0, poll := fun _ => -5 }

/-- PdEnv whose negotiated max-voltage read fails with -EIO. -/
def pdEnvVFailed : PdEnv := { readMaxV := -5, readMaxP := 30 }

/-- Witness for the amended C9 at concrete failing environments. -/
theorem claim_C9_witness :
    (([] : List Nat).length ≤ 29 ∧ sendEnvPollFailed.preRead = 0 ∧
      sendEnvPollFailed.poll 0 < 0 ∧ sendEnvReadFailed.preRead < 0 ∧
      (4 : Nat) % 4 = 0 ∧ pdEnvVFailed.readMaxV < 0) ∧
    (anx7688_send_ocm_message sendEnvPollFailed 0x10 []).fst =
      sendEnvPollFailed.poll 0 ∧
    (anx7688_send_ocm_message sendEnvReadFailed 0x10 []).fst = -16 ∧
    (anx7688_handle_pd_message pdEnvVFailed 0x00 [] 4 0 anxInit).fst =
      pdEnvVFailed.readMaxV := by
  have h1 := claim_C9 sendEnvPollFailed pdEnvVFailed 0x10 [] [] 4 0 anxInit
  have h2 := claim_C9 sendEnvReadFailed pdEnvVFailed 0x10 [] [] 4 0 anxInit
  exact ⟨⟨by decide, by decide, by decide, by decide, by decide, by decide⟩,
    h1.1 (by decide) (by decide) (by decide),
    h2.2.1 (by decide) (by decide),
    h1.2.2.1 (by decide) (by decide)⟩

/-- C10: when the negotiated max-voltage register reads back 0, the
source-capability handler fails with -EINVAL before the division, and
pd_current_limit and the current-update deadline are unchanged. -/
theorem claim_C10 (env : PdEnv) (msg : List Nat) (len : Nat) (now : Int)
    (s : Anx7688) (hlen : len % 4 = 0) (hv : env.readMaxV = 0) :
    (anx7688_handle_pd_message env 0x00 msg len now s).fst = -22 ∧
    (anx7688_handle_pd_message env 0x00 msg len now s).snd.pdCurrentLimit = s.pdCurrentLimit ∧
    (anx7688_handle_pd_message env 0x00 msg len now s).snd.currentUpdateDeadline = s.currentUpdateDeadline := by
  simp only [anx7688_handle_pd_message]
  split_ifs <;> first | exact ⟨rfl, rfl, rfl⟩ | (exfalso; omega) | simp_all

/-- PdEnv whose negotiated max-voltage register reads back 0. -/
def pdEnvV0 : PdEnv := { readMaxV := 0, readMaxP := 30 }

/-- Witness for C10 at a zero max-voltage read. -/
theorem claim_C10_witness :
    ((4 : Nat) % 4 = 0 ∧ pdEnvV0.readMaxV = 0) ∧
    (anx7688_handle_pd_message pdEnvV0 0x00 [] 4 0 anxInit).fst = -22 ∧
    (anx7688_handle_pd_message pdEnvV0 0x00 [] 4 0 anxInit).snd.pdCurrentLimit = anxInit.pdCurrentLimit ∧
    (anx7688_handle_pd_message pdEnvV0 0x00 [] 4 0 anxInit).snd.currentUpdateDeadline = anxInit.currentUpdateDeadline := by
  have h := claim_C10 pdEnvV0 [] 4 0 anxInit (by decide) (by decide)
  exact ⟨⟨by decide, by decide⟩, h.1, h.2.1, h.2.2⟩
